import Mathlib

set_option autoImplicit false

namespace GoogleImagesClone

/-!
Shallow embedding of the Google-Images-Custom-Clone repository.

The four source files are embedded as follows:
- src/app/page.tsx: the search aggregation controller (`SessionState`,
  `fetchResults`, `loadMoreTrigger`, `runTriggers`, link deduplication).
- src/app/api/search/route.ts: the start-parameter coercion
  (`effectiveStart`, `jsParseInt`) and the shape of the error body it
  returns on an upstream failure (`searchRouteErrorBody`).
- src/components/ImageGrid.tsx: the per-link image load state
  (`GridState`, `markFailed`, `enableProxy`, `onErrorStep`).
- src/app/api/image-proxy/route.ts: the proxy request handler
  (`imageProxyGet`).

Network effects are modelled by oracle functions passed as parameters, and
each embedded handler additionally returns the list of upstream requests it
issued, so that claims of the form "no network call is made" are statements
about that list being empty.
-/

/-- The client item shape from src/app/page.tsx (interface SearchItem):
title, link, optional thumbnail. The raw Google items are mapped into this
shape element by element (a length-preserving map), so pages are modelled
directly as lists of `SearchItem`. -/
structure SearchItem where
  title : String
  link : String
  thumbnail : Option String
deriving DecidableEq

/-- JSON-like runtime values, used to model the body the search route sends
and the client then inspects. Property access on a non-object value yields
`none`, matching the JavaScript behaviour where string.details is
undefined. -/
inductive Json where
  | str (s : String)
  | num (n : Int)
  | obj (fields : List (String × Json))

/-- JavaScript optional-chaining property lookup `v?.k`: association lookup
on objects, undefined (`none`) on strings and numbers. -/
def Json.get : Json → String → Option Json
  | .obj fields, k => fields.lookup k
  | .str _, _ => none
  | .num _, _ => none

/-- Extract the string payload of a JSON value; non-strings and undefined
behave as undefined. -/
def jsonString : Option Json → Option String
  | some (.str s) => some s
  | _ => none

/-- JavaScript `a || b` on a string-valued left operand: undefined (`none`)
and the empty string are falsy and fall through to `b`. -/
def jsOrElse (a : Option String) (b : String) : String :=
  match a with
  | some s => if s = "" then b else s
  | none => b

/-- src/app/page.tsx line 86: the message the client surfaces on a non-ok
search response, `data.error?.details || data.error?.message || 'An unknown
error occurred.'`. -/
def clientErrorMessage (data : Json) : String :=
  jsOrElse (jsonString ((data.get "error").bind (fun e => e.get "details")))
    (jsOrElse (jsonString ((data.get "error").bind (fun e => e.get "message")))
      "An unknown error occurred.")

/-- src/app/api/search/route.ts lines 50-53: on a non-ok upstream response
the route answers with a body whose "error" field is the STRING
"Search API error" and whose "details" field is the upstream message when
present (a key whose value is undefined is dropped by JSON
serialisation). -/
def searchRouteErrorBody (googleMessage : Option String) : Json :=
  Json.obj (("error", Json.str "Search API error") ::
    (match googleMessage with
     | some m => [("details", Json.str m)]
     | none => []))

/-- The response the client observes for one page request against
/api/search: a 2xx body with mapped items and a parsed totalResults
estimate, a non-2xx body (carried verbatim as JSON), or a transport
failure (the fetch itself threw). -/
inductive FetchResponse where
  | ok (items : List SearchItem) (total : Option Int)
  | httpError (body : Json)
  | transportError

/-- The React state of SearchPage in src/app/page.tsx lines 24-31:
items, start (the next 1-based offset), hasMore, totalResults, error and
the two loading flags. -/
structure SessionState where
  items : List SearchItem
  start : Nat
  hasMore : Bool
  totalResults : Option Int
  error : Option String
  loading : Bool
  loadingMore : Bool
deriving DecidableEq

/-- The useState initial values from src/app/page.tsx lines 24-31. -/
def initialSession : SessionState :=
  { items := [], start := 1, hasMore := true, totalResults := none,
    error := none, loading := false, loadingMore := false }

/-- The dedupe filter of src/app/page.tsx lines 64-69: walk the list with a
seen set of links, keeping an element exactly when its link has not been
seen yet. -/
def dedupeAux (seen : List String) : List SearchItem → List SearchItem
  | [] => []
  | i :: rest =>
    if i.link ∈ seen then dedupeAux seen rest
    else i :: dedupeAux (i.link :: seen) rest

/-- src/app/page.tsx lines 63-69: dedupe by link, starting from an empty
seen set. -/
def dedupeByLink (l : List SearchItem) : List SearchItem :=
  dedupeAux [] l

/-- src/app/page.tsx lines 61-70: the items update on a successful page.
In append mode the new items are concatenated after the previous ones and
the whole list is deduplicated by link; in replace mode the previous items
are discarded. -/
def mergeItems (prev newItems : List SearchItem) (append : Bool) : List SearchItem :=
  dedupeByLink (if append then prev ++ newItems else newItems)

/-- src/app/page.tsx lines 35-97 (fetchResults), as a state transformer.
The network is an oracle from offset to observed response; the second
component of the result collects the offsets of the requests actually
issued. The finally block clears both loading flags on every path, and the
offset guard at lines 42-47 returns before any request is made. -/
def fetchResults (s : SessionState) (startIndex : Nat) (append : Bool)
    (net : Nat → FetchResponse) : SessionState × List Nat :=
  if startIndex > 100 then
    ({ s with hasMore := false, loading := false, loadingMore := false }, [])
  else
    match net startIndex with
    | .ok newItems total =>
      let merged := mergeItems s.items newItems append
      let nextStart := startIndex + newItems.length
      let more : Bool :=
        !(newItems.length == 0 ||
          (match total with
           | some t => decide ((nextStart : Int) > t)
           | none => false))
      ({ s with items := merged, totalResults := total, start := nextStart,
                hasMore := more, loading := false, loadingMore := false },
       [startIndex])
    | .httpError body =>
      ({ s with error := some (clientErrorMessage body), hasMore := false,
                loading := false, loadingMore := false }, [startIndex])
    | .transportError =>
      ({ s with error := some "Could not connect to the search service.",
                hasMore := false, loading := false, loadingMore := false }, [startIndex])

/-- src/app/page.tsx lines 114-120: the IntersectionObserver callback. A
sentinel-visibility event calls fetchResults in append mode at the current
start offset only when hasMore is set, no fetch is in flight, and items is
nonempty; otherwise it is a no-op and no request is issued. -/
def loadMoreTrigger (s : SessionState) (net : Nat → FetchResponse) :
    SessionState × List Nat :=
  if s.hasMore && !s.loadingMore && !s.loading && !s.items.isEmpty then
    fetchResults s s.start true net
  else (s, [])

/-- A sequence of continuation-trigger events within one session, each with
the network oracle observed at that moment; accumulates all requests
issued. -/
def runTriggers : SessionState → List (Nat → FetchResponse) → SessionState × List Nat
  | s, [] => (s, [])
  | s, net :: rest =>
    let step := loadMoreTrigger s net
    let next := runTriggers step.1 rest
    (next.1, step.2 ++ next.2)

/-- The items accumulated over a sequence of successful page merges within
one session: the first merge happens with the empty item list (a fresh
session replaces items, and replace mode coincides with append mode from an
empty previous list), each later page is merged in append mode exactly as
in the success branch of fetchResults. -/
def sessionItems (pages : List (List SearchItem)) : List SearchItem :=
  pages.foldl (fun acc page => mergeItems acc page true) []

/-- Modelled from the spec: the first occurrence of each link is kept in
its original position and every later duplicate is dropped. This is the
specification-side characterisation of first-seen deduplication, stated
independently of the seen-set implementation, for comparison with
`dedupeByLink`. -/
def firstSeen : List SearchItem → List SearchItem
  | [] => []
  | x :: rest => x :: firstSeen (rest.filter (fun y => decide (y.link ≠ x.link)))
termination_by l => l.length
decreasing_by
  simp only [List.length_cons]
  exact Nat.lt_succ_of_le (List.length_filter_le _ _)

/-! Image grid per-link load state, from src/components/ImageGrid.tsx. -/

/-- The two record-of-boolean maps of src/components/ImageGrid.tsx lines
29-31, modelled as lists of links whose flag is set. -/
structure GridState where
  failedLinks : List String
  proxyLinks : List String
deriving DecidableEq

/-- src/components/ImageGrid.tsx lines 33-45: set the failed flag of a link
if not already set, and delete its proxy flag to avoid further retries. -/
def markFailed (st : GridState) (link : String) : GridState :=
  { failedLinks :=
      if link ∈ st.failedLinks then st.failedLinks else link :: st.failedLinks,
    proxyLinks :=
      if link ∈ st.proxyLinks then st.proxyLinks.erase link else st.proxyLinks }

/-- src/components/ImageGrid.tsx lines 47-52: set the proxy flag of a link
if not already set. -/
def enableProxy (st : GridState) (link : String) : GridState :=
  { st with proxyLinks :=
      if link ∈ st.proxyLinks then st.proxyLinks else link :: st.proxyLinks }

/-- The state change caused by one load-failure event for a link. A failed
link renders the ImageFallback placeholder instead of an img element
(src/components/ImageGrid.tsx lines 140 and 177), so no error event can
fire for it and the state is unchanged; otherwise the onError handler
(lines 149-156 and 186-193) enables the proxy on the first failure and
marks the link failed on a failure while the proxy flag is set. -/
def onErrorStep (st : GridState) (link : String) : GridState :=
  if link ∈ st.failedLinks then st
  else if link ∈ st.proxyLinks then markFailed st link
  else enableProxy st link

/-- The grid state after n consecutive load-failure events for one link. -/
def failN (st : GridState) (link : String) : Nat → GridState
  | 0 => st
  | n + 1 => onErrorStep (failN st link n) link

/-! Image proxy, from src/app/api/image-proxy/route.ts. -/

/-- The result of parsing a URL string: only the protocol component matters
to the handler. Parsing itself (the WHATWG URL constructor) is an external
collaborator and is passed in as an oracle returning `none` when the
constructor would throw on a non-absolute URL. -/
structure ParsedUrl where
  protocol : String
deriving DecidableEq

/-- What the upstream fetch inside the proxy can be observed to do: respond
with a status, status text and optional content-type header; abort on the
10-second timeout (an AbortError); or fail in any other way. -/
inductive UpstreamResult where
  | response (status : Nat) (statusText : String) (contentType : Option String)
  | abortTimeout
  | fetchFailure
deriving DecidableEq

/-- The observable pieces of the response built by the proxy handler:
status code, the error field of a JSON error body, the upstream status and
status text embedded in that body, the forwarded content-type, and whether
the upstream body was streamed through. -/
structure ProxyResponse where
  status : Nat
  errorMsg : Option String
  upstreamStatus : Option Nat
  upstreamStatusText : Option String
  contentType : Option String
  bodyStreamed : Bool
deriving DecidableEq

/-- src/app/api/image-proxy/route.ts lines 12-66 (GET). The second result
component lists the upstream URLs actually fetched. Validation failures
(missing u, URL constructor throw, non-http(s) protocol) answer 400 before
any upstream contact; a non-ok upstream status is forwarded as
max 400 status with the status and status text in the body; an AbortError
produces the distinct Upstream timeout error and any other fetch failure
the Proxy fetch error, both with status 502. -/
def imageProxyGet (u : Option String) (parseUrl : String → Option ParsedUrl)
    (upstream : String → UpstreamResult) : ProxyResponse × List String :=
  match u with
  | none =>
    ({ status := 400, errorMsg := some "Missing url parameter (u)",
       upstreamStatus := none, upstreamStatusText := none,
       contentType := none, bodyStreamed := false }, [])
  | some url =>
    match parseUrl url with
    | none =>
      ({ status := 400, errorMsg := some "Invalid url",
         upstreamStatus := none, upstreamStatusText := none,
         contentType := none, bodyStreamed := false }, [])
    | some parsed =>
      if parsed.protocol = "http:" ∨ parsed.protocol = "https:" then
        match upstream url with
        | .response st text ct =>
          if 200 ≤ st ∧ st < 300 then
            ({ status := 200, errorMsg := none,
               upstreamStatus := none, upstreamStatusText := none,
               contentType := some (jsOrElse ct "application/octet-stream"),
               bodyStreamed := true }, [url])
          else
            ({ status := max 400 st, errorMsg := some "Upstream fetch failed",
               upstreamStatus := some st, upstreamStatusText := some text,
               contentType := none, bodyStreamed := false }, [url])
        | .abortTimeout =>
          ({ status := 502, errorMsg := some "Upstream timeout",
             upstreamStatus := none, upstreamStatusText := none,
             contentType := none, bodyStreamed := false }, [url])
        | .fetchFailure =>
          ({ status := 502, errorMsg := some "Proxy fetch error",
             upstreamStatus := none, upstreamStatusText := none,
             contentType := none, bodyStreamed := false }, [url])
      else
        ({ status := 400, errorMsg := some "Invalid url",
           upstreamStatus := none, upstreamStatusText := none,
           contentType := none, bodyStreamed := false }, [])

/-! Search route start coercion, from src/app/api/search/route.ts. -/

/-- JavaScript parseInt with radix 10: skip leading whitespace, an optional
sign, then the maximal run of decimal digits; NaN (modelled as `none`) when
no digit follows. -/
def jsParseInt (s : String) : Option Int :=
  let cs := s.toList.dropWhile (fun c => c.isWhitespace)
  let signed : Int × List Char :=
    match cs with
    | '-' :: r => (-1, r)
    | '+' :: r => (1, r)
    | _ => (1, cs)
  let digits := signed.2.takeWhile (fun c => c.isDigit)
  if digits.isEmpty then none
  else some (signed.1 * digits.foldl (fun acc c => acc * 10 + ((c.toNat : Int) - 48)) 0)

/-- src/app/api/search/route.ts lines 38-39: the effective upstream offset.
The raw parameter falls back to the literal "1" when absent or empty (the
JavaScript or on a falsy string); a NaN parse or a value below 1 is coerced
to 1. -/
def effectiveStart (startParam : Option String) : Int :=
  let raw := jsOrElse startParam "1"
  match jsParseInt raw with
  | none => 1
  | some n => if n < 1 then 1 else n

/-! Lemmas about the seen-set deduplication filter. -/

theorem dedupeAux_congr (s1 s2 : List String) (l : List SearchItem)
    (h : ∀ a, a ∈ s1 ↔ a ∈ s2) : dedupeAux s1 l = dedupeAux s2 l := by
  induction l generalizing s1 s2 with
  | nil => rfl
  | cons x rest ih =>
    simp only [dedupeAux]
    by_cases hx : x.link ∈ s1
    · rw [if_pos hx, if_pos ((h x.link).mp hx)]
      exact ih s1 s2 h
    · have hx2 : x.link ∉ s2 := fun hc => hx ((h x.link).mpr hc)
      rw [if_neg hx, if_neg hx2]
      congr 1
      refine ih _ _ ?_
      intro a
      simp only [List.mem_cons]
      exact or_congr Iff.rfl (h a)

theorem dedupeAux_append (s : List String) (a b : List SearchItem) :
    dedupeAux s (a ++ b) =
      dedupeAux s a ++ dedupeAux (s ++ a.map SearchItem.link) b := by
  induction a generalizing s with
  | nil =>
    simp only [List.nil_append, List.map_nil, List.append_nil, dedupeAux]
  | cons x rest ih =>
    simp only [List.cons_append, dedupeAux, List.map_cons, List.append_eq]
    by_cases hx : x.link ∈ s
    · rw [if_pos hx, if_pos hx, ih s]
      congr 1
      refine dedupeAux_congr _ _ _ ?_
      intro a2
      simp only [List.mem_append, List.mem_cons]
      constructor
      · rintro (h1 | h1)
        · exact Or.inl h1
        · exact Or.inr (Or.inr h1)
      · rintro (h1 | h1 | h1)
        · exact Or.inl h1
        · exact Or.inl (h1 ▸ hx)
        · exact Or.inr h1
    · rw [if_neg hx, if_neg hx]
      simp only [List.cons_append]
      congr 1
      rw [ih (x.link :: s)]
      congr 1
      refine dedupeAux_congr _ _ _ ?_
      intro a2
      simp only [List.mem_append, List.mem_cons]
      tauto

theorem mem_map_link_dedupeAux (s : List String) (l : List SearchItem) (a : String) :
    a ∈ (dedupeAux s l).map SearchItem.link ↔
      a ∈ l.map SearchItem.link ∧ a ∉ s := by
  induction l generalizing s with
  | nil => simp [dedupeAux]
  | cons x rest ih =>
    simp only [dedupeAux]
    by_cases hx : x.link ∈ s
    · rw [if_pos hx, ih]
      simp only [List.map_cons, List.mem_cons]
      constructor
      · rintro ⟨h1, h2⟩
        exact ⟨Or.inr h1, h2⟩
      · rintro ⟨h1 | h1, h2⟩
        · exact absurd (h1 ▸ hx) h2
        · exact ⟨h1, h2⟩
    · rw [if_neg hx]
      simp only [List.map_cons, List.mem_cons, ih]
      constructor
      · rintro (h1 | ⟨h1, h2⟩)
        · exact ⟨Or.inl h1, h1.symm ▸ hx⟩
        · exact ⟨Or.inr h1, fun hc => h2 (Or.inr hc)⟩
      · rintro ⟨h1 | h1, h2⟩
        · exact Or.inl h1
        · by_cases hax : a = x.link
          · exact Or.inl hax
          · exact Or.inr ⟨h1, fun hc => hc.elim hax h2⟩

theorem nodup_map_link_dedupeAux (s : List String) (l : List SearchItem) :
    ((dedupeAux s l).map SearchItem.link).Nodup := by
  induction l generalizing s with
  | nil => simp [dedupeAux]
  | cons x rest ih =>
    simp only [dedupeAux]
    by_cases hx : x.link ∈ s
    · rw [if_pos hx]
      exact ih s
    · rw [if_neg hx]
      simp only [List.map_cons, List.nodup_cons]
      refine ⟨?_, ih _⟩
      rw [mem_map_link_dedupeAux]
      rintro ⟨_, h2⟩
      exact h2 (List.mem_cons_self _ _)

theorem dedupeAux_of_fresh (s : List String) (l : List SearchItem)
    (h1 : ∀ x ∈ l, x.link ∉ s) (h2 : (l.map SearchItem.link).Nodup) :
    dedupeAux s l = l := by
  induction l generalizing s with
  | nil => rfl
  | cons x rest ih =>
    simp only [List.map_cons, List.nodup_cons] at h2
    simp only [dedupeAux]
    rw [if_neg (h1 x (List.mem_cons_self x rest))]
    congr 1
    refine ih _ ?_ h2.2
    intro y hy
    simp only [List.mem_cons]
    rintro (he | hs)
    · exact h2.1 (he ▸ List.mem_map_of_mem SearchItem.link hy)
    · exact h1 y (List.mem_cons_of_mem _ hy) hs

theorem dedupeByLink_idem (a : List SearchItem) :
    dedupeByLink (dedupeByLink a) = dedupeByLink a := by
  refine dedupeAux_of_fresh _ _ ?_ (nodup_map_link_dedupeAux [] a)
  intro x _
  exact List.not_mem_nil x.link

theorem dedupeByLink_idem_append (a b : List SearchItem) :
    dedupeByLink (dedupeByLink a ++ b) = dedupeByLink (a ++ b) := by
  show dedupeAux [] (dedupeByLink a ++ b) = dedupeAux [] (a ++ b)
  rw [dedupeAux_append, dedupeAux_append]
  have h1 : dedupeAux [] (dedupeByLink a) = dedupeAux [] a :=
    dedupeByLink_idem a
  rw [h1]
  congr 1
  refine dedupeAux_congr _ _ _ ?_
  intro a2
  simp only [List.nil_append]
  have hml := mem_map_link_dedupeAux [] a a2
  simp only [List.not_mem_nil, not_false_iff, and_true] at hml
  exact hml

theorem mergeItems_true_dedupe (acc p : List SearchItem) :
    mergeItems (dedupeByLink acc) p true = dedupeByLink (acc ++ p) :=
  dedupeByLink_idem_append acc p

theorem foldl_merge_eq (pages : List (List SearchItem)) (acc : List SearchItem) :
    pages.foldl (fun a p => mergeItems a p true) (dedupeByLink acc) =
      dedupeByLink (acc ++ pages.flatten) := by
  induction pages generalizing acc with
  | nil => simp
  | cons p rest ih =>
    simp only [List.foldl_cons, List.flatten_cons]
    rw [mergeItems_true_dedupe, ih (acc ++ p), List.append_assoc]

theorem sessionItems_eq_dedupe_flatten (pages : List (List SearchItem)) :
    sessionItems pages = dedupeByLink pages.flatten := by
  have h := foldl_merge_eq pages []
  simp only [List.nil_append] at h
  rw [← h]
  rfl

theorem dedupeAux_cons_seen (t : String) (s : List String) (l : List SearchItem) :
    dedupeAux (t :: s) l =
      dedupeAux s (l.filter (fun y => decide (y.link ≠ t))) := by
  induction l generalizing s with
  | nil => rfl
  | cons y rest ih =>
    by_cases hyt : y.link = t
    · subst hyt
      simp only [dedupeAux, List.filter_cons]
      simp only [ne_eq, not_true_eq_false, decide_False, Bool.false_eq_true,
        if_false, if_pos (List.mem_cons_self y.link s)]
      exact ih s
    · simp only [dedupeAux, List.filter_cons]
      simp only [ne_eq, hyt, not_false_eq_true, decide_True, if_true]
      by_cases hys : y.link ∈ s
      · rw [if_pos (List.mem_cons_of_mem t hys)]
        simp only [dedupeAux, if_pos hys]
        exact ih s
      · have hnotc : y.link ∉ t :: s := by
          simp only [List.mem_cons]
          rintro (h | h)
          · exact hyt h
          · exact hys h
        rw [if_neg hnotc]
        simp only [dedupeAux, if_neg hys]
        congr 1
        rw [dedupeAux_congr (y.link :: t :: s) (t :: y.link :: s) rest
          (by intro a; simp only [List.mem_cons]; tauto)]
        exact ih (y.link :: s)

theorem dedupeByLink_eq_firstSeen : ∀ l : List SearchItem,
    dedupeByLink l = firstSeen l
  | [] => by rw [firstSeen]; rfl
  | x :: rest => by
    rw [firstSeen]
    show dedupeAux [] (x :: rest) = _
    simp only [dedupeAux]
    rw [if_neg (List.not_mem_nil x.link)]
    congr 1
    rw [dedupeAux_cons_seen]
    exact dedupeByLink_eq_firstSeen (rest.filter (fun y => decide (y.link ≠ x.link)))
termination_by l => l.length
decreasing_by
  simp only [List.length_cons]
  exact Nat.lt_succ_of_le (List.length_filter_le _ _)

/-- C4: over any sequence of successful page merges within one session, the
accumulated items contain no two entries with equal link, and the list
equals the first-seen deduplication of the concatenated page stream: the
first occurrence of each link is kept in its original position and every
later duplicate is dropped. -/
theorem c4_items_nodup_firstSeen (pages : List (List SearchItem)) :
    ((sessionItems pages).map SearchItem.link).Nodup ∧
      sessionItems pages = firstSeen pages.flatten := by
  constructor
  · rw [sessionItems_eq_dedupe_flatten]
    exact nodup_map_link_dedupeAux [] pages.flatten
  · rw [sessionItems_eq_dedupe_flatten, dedupeByLink_eq_firstSeen]

/-! Concrete items used in counterexamples and witnesses. -/

def itemA : SearchItem :=
  { title := "A", link := "https://example.com/a.jpg", thumbnail := none }

def itemB : SearchItem :=
  { title := "B", link := "https://example.com/b.jpg", thumbnail := none }

def c1State : SessionState :=
  { items := [itemA], start := 2, hasMore := true, totalResults := none,
    error := none, loading := false, loadingMore := false }

def c1Net : Nat → FetchResponse := fun _ => .ok [itemA, itemB] none

/-- C1, counterexample: a continuation fetch at offset 2 whose page
contains one item already present by link (itemA) and one new item (itemB)
merges exactly one newly-unique item, yet the resulting nextOffset is 4,
not 2 plus 1: the code advances the offset by the raw returned page size,
not by the count of newly merged items. -/
theorem c1_counterexample :
    (fetchResults c1State 2 true c1Net).1.items = [itemA, itemB] ∧
      (fetchResults c1State 2 true c1Net).1.start = 4 ∧
      (fetchResults c1State 2 true c1Net).1.start ≠
        2 + ((fetchResults c1State 2 true c1Net).1.items.length -
          c1State.items.length) := by
  refine ⟨?_, ?_, ?_⟩ <;> decide

/-- C1, amended: after a successful page fetch issued at offset o that is
not rejected by the offset guard, nextOffset equals o plus the raw number
of items the page returned, regardless of how many of them were already
present; this coincides with o plus the newly merged count only when the
page contains no items already present, and it still never advances by the
requested page size. -/
theorem c1_nextOffset_raw_advance (s : SessionState) (startIndex : Nat)
    (append : Bool) (net : Nat → FetchResponse) (page : List SearchItem)
    (total : Option Int) (h1 : startIndex ≤ 100)
    (h2 : net startIndex = .ok page total) :
    (fetchResults s startIndex append net).1.start = startIndex + page.length := by
  simp only [fetchResults]
  rw [if_neg (by omega), h2]

/-- C1 witness: a fresh fetch at offset 1 returning one item advances the
offset to 2. -/
theorem c1_nextOffset_raw_advance_witness :
    1 ≤ 100 ∧
      (fetchResults initialSession 1 false (fun _ => .ok [itemA] none)).1.start =
        1 + [itemA].length :=
  ⟨by decide,
    c1_nextOffset_raw_advance initialSession 1 false _ [itemA] none (by decide) rfl⟩

/-- C2: after a successful page fetch that passed the offset guard, hasMore
is false exactly when the page returned zero items (the mapped newItems
array is empty) or the updated nextOffset strictly exceeds a known
totalResults estimate; otherwise hasMore is true. -/
theorem c2_hasMore_iff (s : SessionState) (startIndex : Nat) (append : Bool)
    (net : Nat → FetchResponse) (page : List SearchItem) (total : Option Int)
    (h1 : startIndex ≤ 100) (h2 : net startIndex = .ok page total) :
    ((fetchResults s startIndex append net).1.hasMore = false ↔
      (page = [] ∨ ∃ t : Int, total = some t ∧
        ((startIndex + page.length : Nat) : Int) > t)) := by
  simp only [fetchResults]
  rw [if_neg (by omega), h2]
  cases total with
  | none =>
    simp [List.length_eq_zero]
  | some t =>
    simp [List.length_eq_zero]
    tauto

def catsItem (n : Nat) : SearchItem :=
  { title := "cat", link := String.append "https://cats.example/" (toString n),
    thumbnail := none }

def catsPage : List SearchItem := (List.range 10).map catsItem

/-- C2 witness, the first-page scenario of the claim: query at offset 1
returning 10 items with totalResults 10 ends the session with hasMore false
and nextOffset 11. -/
theorem c2_hasMore_iff_witness :
    (fetchResults initialSession 1 false (fun _ => .ok catsPage (some 10))).1.hasMore
        = false ∧
      (fetchResults initialSession 1 false
        (fun _ => .ok catsPage (some 10))).1.start = 11 :=
  ⟨(c2_hasMore_iff initialSession 1 false _ catsPage (some 10) (by decide)
      rfl).mpr (Or.inr ⟨10, rfl, by decide⟩),
    by decide⟩

def c3State : SessionState :=
  { items := [itemA], start := 11, hasMore := true, totalResults := some 100,
    error := none, loading := false, loadingMore := false }

def c3Net : Nat → FetchResponse :=
  fun _ => .httpError (searchRouteErrorBody (some "Quota exceeded"))

/-- C3, code-bug demonstration: a continuation fetch at offset 11 receives
the non-2xx body the search route actually builds when the upstream
reports the message Quota exceeded. The accumulated items are left intact
and hasMore becomes false as the claim states, but the surfaced message is
the generic fallback, not the gateway-provided message: the route puts the
string Search API error into the error field and the upstream message into
a sibling details field, while the client reads data.error.details and
data.error.message through the error field, which at runtime is a plain
string, so both lookups are undefined. -/
theorem c3_gateway_message_lost :
    (fetchResults c3State 11 true c3Net).1.items = c3State.items ∧
      (fetchResults c3State 11 true c3Net).1.hasMore = false ∧
      (fetchResults c3State 11 true c3Net).1.error =
        some "An unknown error occurred." ∧
      clientErrorMessage (searchRouteErrorBody (some "Quota exceeded")) ≠
        "Quota exceeded" := by
  refine ⟨?_, ?_, ?_, ?_⟩ <;> decide

/-- C6: a fetch requested at an offset above 100 is rejected locally: no
request offset is recorded against the network oracle, hasMore is forced
to false, the loading flags are cleared by the finally block, and every
other piece of session state (items, error, start, totalResults) is left
unchanged. -/
theorem c6_offset_guard (s : SessionState) (startIndex : Nat) (append : Bool)
    (net : Nat → FetchResponse) (h : startIndex > 100) :
    fetchResults s startIndex append net =
      ({ s with hasMore := false, loading := false, loadingMore := false }, []) := by
  simp only [fetchResults]
  rw [if_pos h]

/-- C6 witness at offset 101. -/
def c6Expected : SessionState :=
  { initialSession with hasMore := false, loading := false, loadingMore := false }

theorem c6_offset_guard_witness :
    101 > 100 ∧
      fetchResults initialSession 101 true (fun _ => .ok [itemA] none) =
        (c6Expected, []) :=
  ⟨by decide, c6_offset_guard initialSession 101 true _ (by decide)⟩

/-- C7: once hasMore is false, any sequence of continuation-trigger events
within the same session leaves the state exactly as it is and issues no
network request at all; in particular hasMore is never set back to true. -/
theorem c7_hasMore_terminal (s : SessionState)
    (nets : List (Nat → FetchResponse)) (h : s.hasMore = false) :
    runTriggers s nets = (s, []) := by
  induction nets with
  | nil => rfl
  | cons net rest ih =>
    simp only [runTriggers, loadMoreTrigger, h, Bool.false_and, if_false]
    simp [ih]

/-- C7 witness: a session with hasMore already false ignores a trigger that
would otherwise have a page available. -/
theorem c7_hasMore_terminal_witness :
    ({ initialSession with hasMore := false } : SessionState).hasMore = false ∧
      runTriggers { initialSession with hasMore := false }
          [fun _ => .ok [itemA] none] =
        ({ initialSession with hasMore := false }, []) :=
  ⟨rfl, c7_hasMore_terminal _ _ rfl⟩

/-- C5: per-link load state advances one way along Direct, ProxyRetry,
Failed. From a fresh link (neither flag set), the first failure sets the
proxy flag without failing, the second clears the proxy flag and marks the
link failed, every later failure leaves the state literally unchanged
(failed is an idempotent terminal state), and the proxy flag is set after
exactly the first failure and never again. -/
theorem c5_image_state_machine (st : GridState) (link : String)
    (h : link ∉ st.failedLinks ∧ link ∉ st.proxyLinks) :
    (link ∈ (failN st link 1).proxyLinks ∧
        link ∉ (failN st link 1).failedLinks) ∧
      (link ∉ (failN st link 2).proxyLinks ∧
        link ∈ (failN st link 2).failedLinks) ∧
      (∀ n, 2 ≤ n → failN st link n = failN st link 2) ∧
      (∀ n, link ∈ (failN st link n).proxyLinks ↔ n = 1) := by
  obtain ⟨hf, hp⟩ := h
  have h1 : failN st link 1 = { st with proxyLinks := link :: st.proxyLinks } := by
    show onErrorStep st link = _
    simp [onErrorStep, enableProxy, hf, hp]
  have h2 : failN st link 2 =
      { failedLinks := link :: st.failedLinks, proxyLinks := st.proxyLinks } := by
    show onErrorStep (failN st link 1) link = _
    rw [h1]
    simp [onErrorStep, markFailed, hf, List.mem_cons, List.erase_cons_head]
  have hterm : ∀ st2, link ∈ st2.failedLinks → onErrorStep st2 link = st2 := by
    intro st2 hmem
    simp [onErrorStep, hmem]
  have h3 : ∀ n, 2 ≤ n → failN st link n = failN st link 2 := by
    intro n
    induction n with
    | zero => intro hn; omega
    | succ k ih =>
      intro hn
      rcases Nat.lt_or_ge k 2 with hk | hk
      · have hk1 : k = 1 := by omega
        subst hk1
        rfl
      · show onErrorStep (failN st link k) link = _
        rw [ih hk]
        exact hterm _ (by rw [h2]; exact List.mem_cons_self link st.failedLinks)
  refine ⟨⟨?_, ?_⟩, ⟨?_, ?_⟩, h3, ?_⟩
  · rw [h1]
    exact List.mem_cons_self link st.proxyLinks
  · rw [h1]
    exact hf
  · rw [h2]
    exact hp
  · rw [h2]
    exact List.mem_cons_self link st.failedLinks
  · intro n
    by_cases hn0 : n = 0
    · subst hn0
      simp [failN, hp]
    · by_cases hn1 : n = 1
      · subst hn1
        rw [h1]
        simp
      · have h2n : 2 ≤ n := by omega
        rw [h3 n h2n, h2]
        simp [hp, hn1]

def gridEmpty : GridState := { failedLinks := [], proxyLinks := [] }

/-- C5 witness: a fresh link in an empty grid state is in the proxy-retry
state after its first load failure. -/
theorem c5_image_state_machine_witness :
    ("u" ∉ gridEmpty.failedLinks ∧ "u" ∉ gridEmpty.proxyLinks) ∧
      ("u" ∈ (failN gridEmpty "u" 1).proxyLinks ∧
        "u" ∉ (failN gridEmpty "u" 1).failedLinks) :=
  ⟨by decide, (c5_image_state_machine gridEmpty "u" (by decide)).1⟩

/-- C8: an image-proxy request whose u parameter is absent, fails to parse
as an absolute URL, or parses with a scheme other than http or https is
answered with status 400 and the upstream oracle is never contacted. -/
theorem c8_proxy_input_validation (u : Option String)
    (parseUrl : String → Option ParsedUrl) (upstream : String → UpstreamResult)
    (h : u = none ∨ ∃ s, u = some s ∧ (parseUrl s = none ∨
        ∃ p, parseUrl s = some p ∧ p.protocol ≠ "http:" ∧ p.protocol ≠ "https:")) :
    (imageProxyGet u parseUrl upstream).1.status = 400 ∧
      (imageProxyGet u parseUrl upstream).2 = [] := by
  rcases h with h | ⟨s, rfl, h⟩
  · subst h
    exact ⟨rfl, rfl⟩
  · rcases h with h | ⟨p, hp, hh, hhs⟩
    · simp [imageProxyGet, h]
    · have hcond : ¬(p.protocol = "http:" ∨ p.protocol = "https:") := by
        rintro (hc | hc)
        · exact hh hc
        · exact hhs hc
      simp only [imageProxyGet, hp]
      rw [if_neg hcond]
      exact ⟨rfl, rfl⟩

/-- A parser oracle recognising exactly the ftp example URL, matching what
the WHATWG URL constructor yields on it. -/
def ftpParse : String → Option ParsedUrl :=
  fun s => if s = "ftp://example.com/x.png" then some { protocol := "ftp:" }
    else none

def idleUpstream : String → UpstreamResult := fun _ => .fetchFailure

/-- C8 witness, the ftp example from the spec: the proxy rejects it with
status 400 and no upstream fetch. -/
theorem c8_proxy_input_validation_witness :
    ((some "ftp://example.com/x.png" : Option String) = none ∨
      ∃ s, (some "ftp://example.com/x.png" : Option String) = some s ∧
        (ftpParse s = none ∨ ∃ p, ftpParse s = some p ∧
          p.protocol ≠ "http:" ∧ p.protocol ≠ "https:")) ∧
      (imageProxyGet (some "ftp://example.com/x.png") ftpParse
          idleUpstream).1.status = 400 ∧
      (imageProxyGet (some "ftp://example.com/x.png") ftpParse
          idleUpstream).2 = [] :=
  ⟨Or.inr ⟨"ftp://example.com/x.png", rfl,
      Or.inr ⟨{ protocol := "ftp:" }, by decide, by decide, by decide⟩⟩,
    c8_proxy_input_validation (some "ftp://example.com/x.png") ftpParse
      idleUpstream
      (Or.inr ⟨"ftp://example.com/x.png", rfl,
        Or.inr ⟨{ protocol := "ftp:" }, by decide, by decide, by decide⟩⟩)⟩

/-- C9: for a request whose target URL validates, a non-success upstream
status s is answered with status max 400 s, hence never below 400, with
the upstream status and status text carried in the body; an aborted
upstream fetch is answered with the distinct Upstream timeout error at
status 502, which differs from the message of every other failure path. -/
theorem c9_proxy_upstream_errors (url : String)
    (parseUrl : String → Option ParsedUrl) (upstream : String → UpstreamResult)
    (p : ParsedUrl) (hp : parseUrl url = some p)
    (hs : p.protocol = "http:" ∨ p.protocol = "https:") :
    (∀ st text ct, upstream url = .response st text ct → st < 200 ∨ 300 ≤ st →
        (imageProxyGet (some url) parseUrl upstream).1.status = max 400 st ∧
        400 ≤ (imageProxyGet (some url) parseUrl upstream).1.status ∧
        (imageProxyGet (some url) parseUrl upstream).1.upstreamStatus = some st ∧
        (imageProxyGet (some url) parseUrl upstream).1.upstreamStatusText =
          some text) ∧
      (upstream url = .abortTimeout →
        (imageProxyGet (some url) parseUrl upstream).1.status = 502 ∧
        (imageProxyGet (some url) parseUrl upstream).1.errorMsg =
          some "Upstream timeout") ∧
      (upstream url = .fetchFailure →
        (imageProxyGet (some url) parseUrl upstream).1.status = 502 ∧
        (imageProxyGet (some url) parseUrl upstream).1.errorMsg =
          some "Proxy fetch error") ∧
      (some "Upstream timeout" ≠ (some "Proxy fetch error" : Option String) ∧
        some "Upstream timeout" ≠ (some "Upstream fetch failed" : Option String)) := by
  refine ⟨?_, ?_, ?_, by decide, by decide⟩
  · intro st text ct hup hrange
    have hok : ¬(200 ≤ st ∧ st < 300) := by omega
    simp only [imageProxyGet, hp, hup]
    rw [if_pos hs, if_neg hok]
    exact ⟨rfl, Nat.le_max_left 400 st, rfl, rfl⟩
  · intro hup
    simp only [imageProxyGet, hp, hup]
    rw [if_pos hs]
    exact ⟨rfl, rfl⟩
  · intro hup
    simp only [imageProxyGet, hp, hup]
    rw [if_pos hs]
    exact ⟨rfl, rfl⟩

def httpsParse : String → Option ParsedUrl :=
  fun _ => some { protocol := "https:" }

def upstream301 : String → UpstreamResult :=
  fun _ => .response 301 "Moved Permanently" none

/-- C9 witness: an upstream 301 with no further redirect resolution is
forwarded as max 400 301, that is 400, with the upstream status and status
text in the body. -/
theorem c9_proxy_upstream_errors_witness :
    (imageProxyGet (some "https://img.example/a.png") httpsParse
        upstream301).1.status = max 400 301 ∧
      400 ≤ (imageProxyGet (some "https://img.example/a.png") httpsParse
        upstream301).1.status ∧
      (imageProxyGet (some "https://img.example/a.png") httpsParse
        upstream301).1.upstreamStatus = some 301 ∧
      (imageProxyGet (some "https://img.example/a.png") httpsParse
        upstream301).1.upstreamStatusText = some "Moved Permanently" :=
  (c9_proxy_upstream_errors "https://img.example/a.png" httpsParse upstream301
      { protocol := "https:" } rfl (Or.inr rfl)).1 301 "Moved Permanently" none
    rfl (by decide)

/-- C10: a start parameter that is absent, does not parse to any integer
under the parseInt semantics, or parses to a value below 1, is silently
coerced: the effective upstream offset is 1. -/
theorem c10_start_coercion (p : Option String)
    (h : p = none ∨ ∃ s, p = some s ∧
        (jsParseInt s = none ∨ ∃ n : Int, jsParseInt s = some n ∧ n < 1)) :
    effectiveStart p = 1 := by
  rcases h with rfl | ⟨s, rfl, h⟩
  · decide
  · by_cases hse : s = ""
    · subst hse
      decide
    · rcases h with h | ⟨n, hn, hlt⟩
      · simp [effectiveStart, jsOrElse, hse, h]
      · simp [effectiveStart, jsOrElse, hse, hn, hlt]

/-- C10 witness: a non-numeric start parameter yields effective offset 1. -/
theorem c10_start_coercion_witness :
    ((some "abc" : Option String) = none ∨
      ∃ s, (some "abc" : Option String) = some s ∧
        (jsParseInt s = none ∨ ∃ n : Int, jsParseInt s = some n ∧ n < 1)) ∧
      effectiveStart (some "abc") = 1 :=
  ⟨Or.inr ⟨"abc", rfl, Or.inl (by decide)⟩,
    c10_start_coercion (some "abc") (Or.inr ⟨"abc", rfl, Or.inl (by decide)⟩)⟩

end GoogleImagesClone
